import Mathlib

/-!
Verification of the job-lifecycle subsystem of a WebAssembly build-and-deploy
orchestrator (Node.js backend).  The definitions below are shallow embeddings
of the JavaScript source: routes, workers, the Mongoose schemas and the two
toolchain services.  Machine integers are modelled as `Nat`/`Int`, buffers as
`List Nat` (byte values), JS strings as `String`/`List Char`, timestamps as
milliseconds (`Nat`), and fallible operations as `Option`.
-/

/-- A log record as produced by the services' `log(type, message)` helpers:
`{type, message, timestamp: new Date().toISOString()}`.  The ISO timestamp is
modelled by its millisecond value (ISO-8601 strings of a fixed epoch compare
lexicographically exactly as their millisecond values compare). -/
structure LogEntry where
  type : String
  message : String
  timestamp : Nat
deriving DecidableEq, Repr

/- ===================== WASM validation (deploymentService.validateWasmFile) ===================== -/

/-- The magic bytes `00 61 73 6d` checked by `validateWasmFile`. -/
def wasmMagicBytes : List Nat := [0x00, 0x61, 0x73, 0x6d]

/-- The version bytes `01 00 00 00` checked by `validateWasmFile`. -/
def wasmVersionBytes : List Nat := [0x01, 0x00, 0x00, 0x00]

/-- The section scan of `validateWasmFile`:
`for (let i = 8; i < Math.min(len, 100); i++) if (buf[i] >= 0 && buf[i] <= 11) ...`.
Bytes are unsigned, so `buf[i] >= 0` always holds and only `buf[i] <= 11`
matters. -/
def hasWasmSection (buf : List Nat) : Bool :=
  ((List.range (min buf.length 100)).drop 8).any (fun i => buf.getD i 0 ≤ 11)

/-- Result object of `validateWasmFile`.  The early-return for short buffers
carries no `magic`/`version`/`size` fields in the source; they are defaulted
here. -/
structure WasmValidationResult where
  valid : Bool
  errors : List String
  magic : List Nat := []
  version : List Nat := []
  size : Nat := 0
deriving DecidableEq, Repr

/-- `deploymentService.validateWasmFile(wasmBuffer)`, translated clause by
clause: reject outright below 8 bytes; otherwise accumulate an error for a bad
magic, an error for a bad version, and - only when the buffer has at least 12
bytes - an error when no byte in positions `8 .. min(len,100)-1` is `≤ 11`.
`valid` is `errors.length === 0`. -/
def validateWasmFile (buf : List Nat) : WasmValidationResult :=
  if buf.length < 8 then
    { valid := false, errors := ["WASM file too small (minimum 8 bytes)"] }
  else
    let magic := buf.take 4
    let version := (buf.drop 4).take 4
    let magicErrs : List String :=
      if magic = wasmMagicBytes then [] else ["Invalid WASM magic bytes"]
    let versionErrs : List String :=
      if version = wasmVersionBytes then [] else ["Unsupported WASM version"]
    let sectionErrs : List String :=
      if 12 ≤ buf.length then
        if hasWasmSection buf then [] else ["No valid WASM sections found"]
      else []
    let errors := magicErrs ++ versionErrs ++ sectionErrs
    { valid := errors.isEmpty, errors := errors,
      magic := magic, version := version, size := buf.length }

/-- C6: every rejection clause of `validateWasmFile`, as necessary conditions:
short buffers are rejected, bad magic is rejected, bad version is rejected,
and an accepted buffer contains a byte `≤ 11` among its first 100 bytes. -/
theorem validateWasmFile_necessary_conditions (buf : List Nat) :
    (buf.length < 8 → (validateWasmFile buf).valid = false)
    ∧ (buf.take 4 ≠ wasmMagicBytes → (validateWasmFile buf).valid = false)
    ∧ ((buf.drop 4).take 4 ≠ wasmVersionBytes → (validateWasmFile buf).valid = false)
    ∧ ((validateWasmFile buf).valid = true →
        ∃ i, i < min buf.length 100 ∧ buf.getD i 0 ≤ 11) := by
  unfold validateWasmFile
  by_cases hlen : buf.length < 8
  · simp [hlen]
  · simp only [hlen, if_false]
    refine ⟨fun h => h.elim, ?_, ?_, ?_⟩
    · intro hm
      simp only [List.isEmpty_eq_true, hm, if_false]
      simp
    · intro hv
      simp only [List.isEmpty_eq_true, hv, if_false]
      simp
    · intro hvalid
      simp only [List.isEmpty_eq_true, List.append_eq_nil] at hvalid
      have hm : buf.take 4 = wasmMagicBytes := by
        by_contra hm
        simp [hm] at hvalid
      have h0 : buf.getD 0 0 = 0 := by
        rcases buf with _ | ⟨b, rest⟩
        · simp at hlen
        · have : b = 0 := by
            have := hm
            simp [wasmMagicBytes, List.take] at this
            exact this.1
          simp [this]
      exact ⟨0, by omega, by rw [h0]; omega⟩

/-- Witness for C6 at concrete buffers. -/
theorem validateWasmFile_necessary_conditions_witness :
    (validateWasmFile [0]).valid = false
    ∧ (validateWasmFile [1, 2, 3, 4, 5, 6, 7, 8]).valid = false
    ∧ (validateWasmFile [0x00, 0x61, 0x73, 0x6d, 9, 9, 9, 9]).valid = false
    ∧ ∃ i, i < min ([0x00, 0x61, 0x73, 0x6d, 0x01, 0x00, 0x00, 0x00] : List Nat).length 100
        ∧ ([0x00, 0x61, 0x73, 0x6d, 0x01, 0x00, 0x00, 0x00] : List Nat).getD i 0 ≤ 11 :=
  ⟨(validateWasmFile_necessary_conditions [0]).1 (by decide),
   (validateWasmFile_necessary_conditions [1, 2, 3, 4, 5, 6, 7, 8]).2.1 (by decide),
   (validateWasmFile_necessary_conditions [0x00, 0x61, 0x73, 0x6d, 9, 9, 9, 9]).2.2.1 (by decide),
   (validateWasmFile_necessary_conditions [0x00, 0x61, 0x73, 0x6d, 0x01, 0x00, 0x00, 0x00]).2.2.2
     (by decide)⟩

/-- C10: `validateWasmFile` applies the section scan only from 12 bytes up;
a buffer of length 8 to 11 starting with the exact magic and version bytes is
reported valid whatever its remaining bytes are. -/
theorem validateWasmFile_short_buffers_valid (buf : List Nat)
    (h8 : 8 ≤ buf.length) (h11 : buf.length ≤ 11)
    (hm : buf.take 4 = wasmMagicBytes)
    (hv : (buf.drop 4).take 4 = wasmVersionBytes) :
    (validateWasmFile buf).valid = true := by
  unfold validateWasmFile
  have hlen : ¬ buf.length < 8 := by omega
  have h12 : ¬ 12 ≤ buf.length := by omega
  simp [hlen, h12, hm, hv]

/-- Witness for C10 at a concrete 9-byte buffer. -/
theorem validateWasmFile_short_buffers_valid_witness :
    (validateWasmFile [0x00, 0x61, 0x73, 0x6d, 0x01, 0x00, 0x00, 0x00, 0xff]).valid = true :=
  validateWasmFile_short_buffers_valid
    [0x00, 0x61, 0x73, 0x6d, 0x01, 0x00, 0x00, 0x00, 0xff]
    (by decide) (by decide) (by decide) (by decide)

/- ===================== Quota gate (User model: canDeploy / canTestFunction) ===================== -/

/-- Milliseconds per day, the divisor in
`Math.floor((now - resetDate) / (1000 * 60 * 60 * 24))`. -/
def msPerDay : Nat := 1000 * 60 * 60 * 24

/-- `daysSinceReset` of the user model.  JS floor division on a non-negative
difference; a reset date in the future gives a negative day count in JS and
`0` here, and neither triggers the 30-day reset. -/
def daysSinceReset (now resetDate : Nat) : Nat := (now - resetDate) / msPerDay

/-- One usage counter of the user schema: `{count, limit, lastResetDate}`.
`limit = -1` means unlimited. -/
structure UsageCounter where
  count : Int
  limit : Int
  lastResetDate : Nat
deriving DecidableEq, Repr

/-- The `usage` subdocument of the user schema. -/
structure UserUsage where
  deployments : UsageCounter
  functionTests : UsageCounter
deriving DecidableEq, Repr

/-- The object returned by `canDeploy`/`canTestFunction`: `{allowed}` on the
unlimited branch, `{allowed, current, limit}` on admit, and
`{allowed:false, reason, current, limit}` on reject. -/
structure QuotaCheck where
  allowed : Bool
  reason : Option String := none
  current : Option Int := none
  limit : Option Int := none
deriving DecidableEq, Repr

/-- The 30-day reset block shared by `canDeploy` and `canTestFunction`: both
counters are zeroed and both reset dates set to `now`. -/
def resetBothCounters (now : Nat) (u : UserUsage) : UserUsage :=
  { deployments := { u.deployments with count := 0, lastResetDate := now },
    functionTests := { u.functionTests with count := 0, lastResetDate := now } }

/-- `userSchema.methods.canDeploy`, returning the decision together with the
usage state after the call (the method mutates `this.usage` and saves when the
reset fires).  The `-1` check comes first and returns without touching the
state; otherwise the 30-day reset runs, then `count >= limit` rejects. -/
def canDeploy (now : Nat) (u : UserUsage) : QuotaCheck × UserUsage :=
  if u.deployments.limit = -1 then
    ({ allowed := true }, u)
  else
    let u1 := if 30 ≤ daysSinceReset now u.deployments.lastResetDate
              then resetBothCounters now u else u
    if u1.deployments.limit ≤ u1.deployments.count then
      ({ allowed := false, reason := some "Deployment limit reached",
         current := some u1.deployments.count, limit := some u1.deployments.limit }, u1)
    else
      ({ allowed := true, current := some u1.deployments.count,
         limit := some u1.deployments.limit }, u1)

/-- `userSchema.methods.canTestFunction`, symmetric to `canDeploy` over the
`functionTests` counter. -/
def canTestFunction (now : Nat) (u : UserUsage) : QuotaCheck × UserUsage :=
  if u.functionTests.limit = -1 then
    ({ allowed := true }, u)
  else
    let u1 := if 30 ≤ daysSinceReset now u.functionTests.lastResetDate
              then resetBothCounters now u else u
    if u1.functionTests.limit ≤ u1.functionTests.count then
      ({ allowed := false, reason := some "Function test limit reached",
         current := some u1.functionTests.count, limit := some u1.functionTests.limit }, u1)
    else
      ({ allowed := true, current := some u1.functionTests.count,
         limit := some u1.functionTests.limit }, u1)

/-- `userSchema.methods.updateUsageLimits`: per-plan limits
(free: 5 deploys, 2 function tests; plan2: unlimited deploys, 5 function
tests; plan3: both unlimited; other strings fall through the switch). -/
def updateUsageLimits (plan : String) (u : UserUsage) : UserUsage :=
  if plan = "free" then
    { deployments := { u.deployments with limit := 5 },
      functionTests := { u.functionTests with limit := 2 } }
  else if plan = "plan2" then
    { deployments := { u.deployments with limit := -1 },
      functionTests := { u.functionTests with limit := 5 } }
  else if plan = "plan3" then
    { deployments := { u.deployments with limit := -1 },
      functionTests := { u.functionTests with limit := -1 } }
  else u

/-- The claim's admit gate for the deploy action, written from the claim's
words: FIRST run the periodic reset (zero counters, set reset date) whenever
30 days have elapsed, THEN admit iff the limit is `-1` or the count is below
the limit, rejecting with the current count and limit otherwise. -/
def admitDeployClaim (now : Nat) (u : UserUsage) : QuotaCheck × UserUsage :=
  let u1 := if 30 ≤ daysSinceReset now u.deployments.lastResetDate
            then resetBothCounters now u else u
  if u1.deployments.limit = -1 ∨ u1.deployments.count < u1.deployments.limit then
    ({ allowed := true, current := some u1.deployments.count,
       limit := some u1.deployments.limit }, u1)
  else
    ({ allowed := false, reason := some "Deployment limit reached",
       current := some u1.deployments.count, limit := some u1.deployments.limit }, u1)

/-- Usage state of a user with an unlimited deploy counter whose last reset
lies 31 days in the past. -/
def staleUnlimitedUsage : UserUsage :=
  { deployments := { count := 3, limit := -1, lastResetDate := 0 },
    functionTests := { count := 1, limit := 5, lastResetDate := 0 } }

/-- C8 counterexample: with `limit = -1` and 31 elapsed days, `canDeploy`
returns without performing the periodic reset - the stored counters stay at
`3`/`1` and the reset dates stay at `0` - while the claim's reset-first gate
zeroes them; the two disagree on the resulting state. -/
theorem canDeploy_skips_reset_when_unlimited :
    (canDeploy (31 * msPerDay) staleUnlimitedUsage).2 = staleUnlimitedUsage
    ∧ (admitDeployClaim (31 * msPerDay) staleUnlimitedUsage).2.deployments.count = 0
    ∧ (canDeploy (31 * msPerDay) staleUnlimitedUsage).2
        ≠ (admitDeployClaim (31 * msPerDay) staleUnlimitedUsage).2 := by
  refine ⟨rfl, ?_, ?_⟩ <;> decide

/-- The usage state after the reset step of `canDeploy` for a limited
counter. -/
def deployUsageAfterReset (now : Nat) (u : UserUsage) : UserUsage :=
  if 30 ≤ daysSinceReset now u.deployments.lastResetDate
  then resetBothCounters now u else u

/-- The usage state after the reset step of `canTestFunction` for a limited
counter. -/
def testUsageAfterReset (now : Nat) (u : UserUsage) : UserUsage :=
  if 30 ≤ daysSinceReset now u.functionTests.lastResetDate
  then resetBothCounters now u else u

/-- C8 amended: when the action's limit is `-1` the gate admits immediately
and performs no reset; otherwise it first performs the periodic reset and
then admits iff the (possibly reset) count is strictly below the limit,
rejecting with the current count and the limit; the per-plan limits are
free = (5, 2), plan2 = (-1, 5), plan3 = (-1, -1). -/
theorem quota_gate_behaviour (now : Nat) (u : UserUsage) :
    (u.deployments.limit = -1 → canDeploy now u = ({ allowed := true }, u))
    ∧ (u.deployments.limit ≠ -1 →
        (canDeploy now u).2 = deployUsageAfterReset now u
        ∧ ((canDeploy now u).1.allowed = true ↔
            (deployUsageAfterReset now u).deployments.count
              < (deployUsageAfterReset now u).deployments.limit)
        ∧ ((canDeploy now u).1.allowed = false →
            (canDeploy now u).1.current
                = some (deployUsageAfterReset now u).deployments.count
            ∧ (canDeploy now u).1.limit
                = some (deployUsageAfterReset now u).deployments.limit))
    ∧ (u.functionTests.limit = -1 → canTestFunction now u = ({ allowed := true }, u))
    ∧ (u.functionTests.limit ≠ -1 →
        (canTestFunction now u).2 = testUsageAfterReset now u
        ∧ ((canTestFunction now u).1.allowed = true ↔
            (testUsageAfterReset now u).functionTests.count
              < (testUsageAfterReset now u).functionTests.limit)
        ∧ ((canTestFunction now u).1.allowed = false →
            (canTestFunction now u).1.current
                = some (testUsageAfterReset now u).functionTests.count
            ∧ (canTestFunction now u).1.limit
                = some (testUsageAfterReset now u).functionTests.limit))
    ∧ ((updateUsageLimits "free" u).deployments.limit = 5
        ∧ (updateUsageLimits "free" u).functionTests.limit = 2
        ∧ (updateUsageLimits "plan2" u).deployments.limit = -1
        ∧ (updateUsageLimits "plan2" u).functionTests.limit = 5
        ∧ (updateUsageLimits "plan3" u).deployments.limit = -1
        ∧ (updateUsageLimits "plan3" u).functionTests.limit = -1) := by
  refine ⟨?_, ?_, ?_, ?_, ?_⟩
  · intro h
    simp [canDeploy, h]
  · intro h
    unfold canDeploy deployUsageAfterReset
    simp only [h, if_false]
    set u1 := if 30 ≤ daysSinceReset now u.deployments.lastResetDate
              then resetBothCounters now u else u with hu1
    by_cases hle : u1.deployments.limit ≤ u1.deployments.count
    · simp [hle]
    · simp [hle]
      omega
  · intro h
    simp [canTestFunction, h]
  · intro h
    unfold canTestFunction testUsageAfterReset
    simp only [h, if_false]
    set u1 := if 30 ≤ daysSinceReset now u.functionTests.lastResetDate
              then resetBothCounters now u else u with hu1
    by_cases hle : u1.functionTests.limit ≤ u1.functionTests.count
    · simp [hle]
    · simp [hle]
      omega
  · simp [updateUsageLimits]

/-- Usage state of a free-tier user who has used all 5 deployments but no
function tests, with a fresh reset date. -/
def freeMaxedUsage : UserUsage :=
  { deployments := { count := 5, limit := 5, lastResetDate := 0 },
    functionTests := { count := 0, limit := 2, lastResetDate := 0 } }

/-- Witness for C8 at a free-tier user over its limit with no reset due. -/
theorem quota_gate_behaviour_witness :
    (canDeploy 1000 freeMaxedUsage).1.allowed = false
    ∧ (canTestFunction 1000 freeMaxedUsage).1.allowed = true := by
  have h := quota_gate_behaviour 1000 freeMaxedUsage
  refine ⟨?_, ?_⟩
  · have h2 := (h.2.1 (by decide)).2.1
    revert h2
    decide
  · have h4 := (h.2.2.2.1 (by decide)).2.1
    revert h4
    decide

/- ===================== Job store and workers (models/Job.js, workers/compileWorker.js, workers/deployWorker.js) ===================== -/

/-- Job status enum of the Job schema. -/
inductive JobStatus where
  | queued
  | active
  | completed
  | failed
deriving DecidableEq, Repr

/-- The `result` payload a worker writes on a job (`jobResult` in both
workers); unused optional fields default to `none`. -/
structure JobResultRec where
  success : Bool
  logs : List LogEntry
  wasmBase64 : Option String := none
  wasmFile : Option String := none
  compilationType : Option String := none
  contractAddress : Option String := none
  network : Option String := none
  walletAddress : Option String := none
  keypairName : Option String := none
  error : Option String := none
deriving DecidableEq, Repr

/-- The mutable part of a stored Job document that the workers write:
`status`, `result`, `error`. -/
structure StoredJob where
  status : JobStatus
  result : Option JobResultRec
  error : Option String
deriving DecidableEq, Repr

/-- What `compilationService.compileProject` resolves with. -/
structure CompileServiceResult where
  success : Bool
  logs : List LogEntry
  wasmBase64 : Option String := none
  wasmFile : Option String := none
  compilationType : Option String := none
  error : Option String := none
deriving DecidableEq, Repr

/-- What `deploymentService.deployContract` resolves with. -/
structure DeployServiceResult where
  success : Bool
  logs : List LogEntry
  contractAddress : Option String := none
  network : Option String := none
  projectId : Option String := none
  walletAddress : Option String := none
  keypairName : Option String := none
  error : Option String := none
deriving DecidableEq, Repr

/-- The compile worker's first store write:
`Job.findByIdAndUpdate(jobId, {status:'active', result:{success:false,
logs:[Compilation started...]}})` - it sets `status` and `result`
unconditionally and leaves `error` untouched. -/
def compileMarkActive (t : Nat) (j : StoredJob) : StoredJob :=
  { status := JobStatus.active,
    result := some { success := false,
                     logs := [⟨"info", "Compilation started...", t⟩] },
    error := j.error }

/-- The compile worker's terminal store write built from the service result:
status from `result.success`, the assembled `jobResult`, and `error` set to
`null` on success or the message (default `Compilation failed`) on failure. -/
def compileTerminalWrite (r : CompileServiceResult) (j : StoredJob) : StoredJob :=
  { status := if r.success then JobStatus.completed else JobStatus.failed,
    result := some { success := r.success, logs := r.logs,
                     wasmBase64 := r.wasmBase64, wasmFile := r.wasmFile,
                     compilationType := r.compilationType, error := r.error },
    error := if r.success then none else some (r.error.getD "Compilation failed") }

/-- `processCompileJob` on the non-throw path, as its effect on the stored
job: mark active, run the service, write the terminal record.  The
incremental `updateJobLogs` writes only touch `result.logs` and are absorbed
by the terminal write. -/
def processCompileJobModel (t : Nat) (r : CompileServiceResult) (j : StoredJob) : StoredJob :=
  compileTerminalWrite r (compileMarkActive t j)

/-- The deploy worker's first store write ("Deployment started..."). -/
def deployMarkActive (t : Nat) (j : StoredJob) : StoredJob :=
  { status := JobStatus.active,
    result := some { success := false,
                     logs := [⟨"info", "Deployment started...", t⟩] },
    error := j.error }

/-- The deploy worker's terminal store write built from the service result. -/
def deployTerminalWrite (r : DeployServiceResult) (j : StoredJob) : StoredJob :=
  { status := if r.success then JobStatus.completed else JobStatus.failed,
    result := some { success := r.success, logs := r.logs,
                     contractAddress := r.contractAddress, network := r.network,
                     walletAddress := r.walletAddress, keypairName := r.keypairName,
                     error := r.error },
    error := if r.success then none else some (r.error.getD "Deployment failed") }

/-- `processDeployJob` on the non-throw path, as its effect on the stored
job. -/
def processDeployJobModel (t : Nat) (r : DeployServiceResult) (j : StoredJob) : StoredJob :=
  deployTerminalWrite r (deployMarkActive t j)

/-- A job whose stored status is terminal `completed` with a recorded
result. -/
def completedStoredJob : StoredJob :=
  { status := JobStatus.completed,
    result := some { success := true, logs := [⟨"success", "done", 7⟩] },
    error := none }

/-- A failing service result used to re-process the job above. -/
def rerunFailureResult : CompileServiceResult :=
  { success := false, logs := [], error := some "boom" }

/-- C1 counterexample: the workers perform no idempotency check, so
re-processing a redelivered payload for a job whose stored status is
`completed` is not a no-op - already the first write flips the status to
`active`, and the full re-run replaces status, result and error. -/
theorem terminal_job_rewritten_on_redelivery :
    completedStoredJob.status = JobStatus.completed
    ∧ (compileMarkActive 9 completedStoredJob).status = JobStatus.active
    ∧ processCompileJobModel 9 rerunFailureResult completedStoredJob ≠ completedStoredJob
    ∧ (processCompileJobModel 9 rerunFailureResult completedStoredJob).status
        = JobStatus.failed := by
  refine ⟨rfl, rfl, ?_, rfl⟩
  decide

/-- C1 amended: re-processing a redelivered payload is a full overwrite, not
a no-op: the first write always sets the status to `active`, and the final
stored record is determined by the re-run's service result alone -
independent of whatever terminal status, result and error were stored
before. -/
theorem reprocessing_overwrites_stored_job (t : Nat) (j j2 : StoredJob) :
    ((compileMarkActive t j).status = JobStatus.active
      ∧ ∀ r : CompileServiceResult,
          processCompileJobModel t r j = processCompileJobModel t r j2)
    ∧ ((deployMarkActive t j).status = JobStatus.active
      ∧ ∀ r : DeployServiceResult,
          processDeployJobModel t r j = processDeployJobModel t r j2) :=
  ⟨⟨rfl, fun _ => rfl⟩, ⟨rfl, fun _ => rfl⟩⟩

/- ===================== Deploy route and Job schema (unnamed deploy route, models/Job.js, workers/deployWorker.js) ===================== -/

/-- Request body of `POST /api/deploy`: `{projectId, wasmBase64,
network = 'testnet', walletInfo}`.  Absent fields are `none`; JS also treats
the empty string as missing (falsy). -/
structure DeployRequestBody where
  projectId : Option String := none
  wasmBase64 : Option String := none
  network : String := "testnet"
  walletInfo : Option String := none
deriving DecidableEq, Repr

/-- The BullMQ payload built by the deploy route and `addDeployJob`:
`{projectId, wasmBase64, network, jobId, walletInfo}`.  It has no `userId`
field - the route never adds one (the compile route does). -/
structure DeployPayload where
  projectId : String
  wasmBase64 : String
  network : String
  jobId : String
  walletInfo : Option String := none
deriving DecidableEq, Repr

/-- The Job document as handed to `new Job({...})`, with one `Option` per
schema path the routes set; `none` means the path is absent from the
document. -/
structure JobDoc where
  type : Option String := none
  status : Option String := none
  userId : Option String := none
  project : Option String := none
  bullJobId : Option String := none
deriving DecidableEq, Repr

/-- Mongoose validation of the Job schema: `type`, `userId`, `project` and
`bullJobId` are `required: true`; `type` and `status` are enum-checked;
`status` defaults to `queued` when absent. -/
def jobSchemaValidate (d : JobDoc) : Bool :=
  (match d.type with
   | some t => t = "compile" ∨ t = "deploy"
   | none => false)
  && (match d.status with
   | some s => s = "queued" ∨ s = "active" ∨ s = "completed" ∨ s = "failed"
   | none => true)
  && d.userId.isSome
  && d.project.isSome
  && d.bullJobId.isSome

/-- The Job document the deploy route constructs:
`new Job({_id, type:'deploy', status:'queued', project: projectId,
bullJobId})` - no `userId`. -/
def deployJobDoc (projectId bullJobId : String) : JobDoc :=
  { type := some "deploy", status := some "queued",
    project := some projectId, bullJobId := some bullJobId }

/-- HTTP outcome of the deploy route. -/
inductive DeployRouteResult where
  | badRequest
  | accepted (jobId : String)
  | serverError
deriving DecidableEq, Repr

/-- Broker queue and Mongo store touched by the deploy route. -/
structure DeployState where
  queue : List DeployPayload
  store : List (String × StoredJob)
deriving DecidableEq, Repr

/-- `router.post('/')` of the deploy route, with `fresh` the generated
ObjectId: after the presence check it FIRST enqueues the BullMQ payload,
THEN builds the Job document (without `userId`) and saves it; a failed save
is caught and answered with 500 while the enqueue stands. -/
def deployRoute (body : DeployRequestBody) (fresh : String) (s : DeployState) :
    DeployRouteResult × DeployState :=
  match body.projectId, body.wasmBase64 with
  | some pid, some wasm =>
    if pid = "" ∨ wasm = "" then (DeployRouteResult.badRequest, s)
    else
      let payload : DeployPayload :=
        { projectId := pid, wasmBase64 := wasm, network := body.network,
          jobId := fresh, walletInfo := body.walletInfo }
      let s1 : DeployState := { s with queue := s.queue ++ [payload] }
      let doc := deployJobDoc pid ("deploy-" ++ fresh)
      if jobSchemaValidate doc then
        (DeployRouteResult.accepted fresh,
         { s1 with store := s1.store ++
            [(fresh, { status := JobStatus.queued, result := none, error := none })] })
      else
        (DeployRouteResult.serverError, s1)
  | _, _ => (DeployRouteResult.badRequest, s)

/-- `Job.findByIdAndUpdate(id, f)` as used by the deploy worker: update the
matching document when present; a missing document makes the call a no-op
(the worker never inspects the returned value). -/
def storeUpdateById (id : String) (f : StoredJob → StoredJob)
    (store : List (String × StoredJob)) : List (String × StoredJob) :=
  store.map (fun kv => if kv.1 = id then (kv.1, f kv.2) else kv)

/-- `processDeployJob` of the deploy worker, at the store level: an
unconditional mark-active update, the deployment run itself (`runner` stands
for `deploymentService.deployContract`), and the terminal update.  No read
checks that the Job exists; the function's value is the worker's return
object built from the runner's result. -/
def deployWorkerStep (runner : DeployPayload → DeployServiceResult) (t : Nat)
    (p : DeployPayload) (store : List (String × StoredJob)) :
    DeployServiceResult × List (String × StoredJob) :=
  let s1 := storeUpdateById p.jobId (deployMarkActive t) store
  let r := runner p
  let s2 := storeUpdateById p.jobId (deployTerminalWrite r) s1
  (r, s2)

/-- C9: for a well-formed `POST /api/deploy`, the payload is enqueued before
the insert; the Job document lacks the `userId` the schema requires, so the
save is rejected and the client gets a 5xx while the payload stays enqueued
and the store is unchanged; and the deploy worker runs the deployment on
that payload regardless of the store contents - in particular against the
empty store, which it leaves empty. -/
theorem deploy_route_orphan_payload (body : DeployRequestBody)
    (pid wasm : String) (hp : body.projectId = some pid)
    (hw : body.wasmBase64 = some wasm) (hp0 : pid ≠ "") (hw0 : wasm ≠ "")
    (fresh : String) (s : DeployState)
    (runner : DeployPayload → DeployServiceResult) (t : Nat) :
    (deployJobDoc pid ("deploy-" ++ fresh)).userId = none
    ∧ jobSchemaValidate (deployJobDoc pid ("deploy-" ++ fresh)) = false
    ∧ (deployRoute body fresh s).1 = DeployRouteResult.serverError
    ∧ (deployRoute body fresh s).2.queue
        = s.queue ++ [{ projectId := pid, wasmBase64 := wasm,
                        network := body.network, jobId := fresh,
                        walletInfo := body.walletInfo }]
    ∧ (deployRoute body fresh s).2.store = s.store
    ∧ (∀ p store1 store2,
        (deployWorkerStep runner t p store1).1 = (deployWorkerStep runner t p store2).1)
    ∧ (∀ p, deployWorkerStep runner t p [] = (runner p, [])) := by
  have hval : jobSchemaValidate (deployJobDoc pid ("deploy-" ++ fresh)) = false := by
    simp [jobSchemaValidate, deployJobDoc]
  refine ⟨rfl, hval, ?_, ?_, ?_, fun p store1 store2 => rfl, fun p => ?_⟩
  · simp [deployRoute, hp, hw, hp0, hw0, hval]
  · simp [deployRoute, hp, hw, hp0, hw0, hval]
  · simp [deployRoute, hp, hw, hp0, hw0, hval]
  · simp [deployWorkerStep, storeUpdateById]

/-- Witness for C9 at a concrete request. -/
theorem deploy_route_orphan_payload_witness :
    (deployRoute { projectId := some "P1", wasmBase64 := some "AGFzbQ" } "J1"
        { queue := [], store := [] }).1 = DeployRouteResult.serverError
    ∧ (deployRoute { projectId := some "P1", wasmBase64 := some "AGFzbQ" } "J1"
        { queue := [], store := [] }).2.store = [] := by
  have h := deploy_route_orphan_payload
    { projectId := some "P1", wasmBase64 := some "AGFzbQ" } "P1" "AGFzbQ"
    rfl rfl (by decide) (by decide) "J1" { queue := [], store := [] }
    (fun _ => { success := false, logs := [] }) 0
  exact ⟨h.2.2.1, h.2.2.2.2.1⟩

/-- The quota gate's verdict for `freeMaxedUsage` - what `canDeploy` would
say had the deploy route consulted it. -/
def freeMaxedVerdict : QuotaCheck := (canDeploy 1000 freeMaxedUsage).1

/-- C2 (code bug): the deploy route never resolves a user and never calls
`canDeploy`, so the 6th deploy of a maxed-out free-tier user is not answered
with `403 QuotaExceeded`: the gate itself would reject with
`current = 5, limit = 5`, yet the route enqueues the payload and - because
the Job insert fails on the missing `userId` - answers 500. -/
theorem deploy_route_ignores_quota :
    freeMaxedVerdict.allowed = false
    ∧ freeMaxedVerdict.current = some 5
    ∧ freeMaxedVerdict.limit = some 5
    ∧ (deployRoute { projectId := some "P1", wasmBase64 := some "AGFzbQ" } "J1"
        { queue := [], store := [] }).1 = DeployRouteResult.serverError
    ∧ (deployRoute { projectId := some "P1", wasmBase64 := some "AGFzbQ" } "J1"
        { queue := [], store := [] }).2.queue
      = [{ projectId := "P1", wasmBase64 := "AGFzbQ", network := "testnet",
           jobId := "J1", walletInfo := none }] := by
  refine ⟨?_, ?_, ?_, ?_, ?_⟩ <;> decide

/- ===================== Job read route (routes/jobs.js) ===================== -/

/-- A stored Job document as the read route sees it, including the schema's
`userId` owner field. -/
structure OwnedJob where
  id : String
  userId : String
  type : String
  status : JobStatus
  result : Option JobResultRec := none
  error : Option String := none
deriving DecidableEq, Repr

/-- Response of `GET /api/jobs/:id`. -/
inductive GetJobResponse where
  | notFound
  | ok (job : OwnedJob)
deriving DecidableEq, Repr

/-- `router.get('/:id')` of the jobs route: `Job.findById(id)`, 404 when
absent, otherwise the job record.  The route is mounted without any
authentication middleware and never reads a requester identity; the
`requester` argument records who asked and is (faithfully) ignored. -/
def getJobById (store : List OwnedJob) (requester : String) (id : String) :
    GetJobResponse :=
  match store.find? (fun j => j.id = id) with
  | none => GetJobResponse.notFound
  | some j => GetJobResponse.ok j

/-- A store holding a single job owned by user `u1`. -/
def singleOwnerStore : List OwnedJob :=
  [{ id := "J1", userId := "u1", type := "deploy", status := JobStatus.completed }]

/-- C3 counterexample: the job record is returned to a principal other than
the owner - requester `u2` receives the record of the job owned by `u1`, so
the route does not authorize by owner match. -/
theorem job_read_no_owner_check :
    getJobById singleOwnerStore "u2" "J1"
      = GetJobResponse.ok { id := "J1", userId := "u1", type := "deploy",
                            status := JobStatus.completed }
    ∧ "u2" ≠ "u1" := by
  refine ⟨?_, ?_⟩ <;> decide

/-- C3 amended: `GET /api/jobs/:id` performs no authorization at all - the
response is the same for every requester, and the record is returned to any
requester exactly when the id exists in the store. -/
theorem job_read_requester_irrelevant (store : List OwnedJob) (id r1 r2 : String) :
    getJobById store r1 id = getJobById store r2 id
    ∧ (∀ j, store.find? (fun x => x.id = id) = some j →
        getJobById store r1 id = GetJobResponse.ok j) := by
  refine ⟨rfl, fun j hj => ?_⟩
  simp [getJobById, hj]

/-- Witness for C3 amended at the single-owner store. -/
theorem job_read_requester_irrelevant_witness :
    getJobById singleOwnerStore "owner" "J1" = getJobById singleOwnerStore "stranger" "J1"
    ∧ getJobById singleOwnerStore "owner" "J1"
        = GetJobResponse.ok { id := "J1", userId := "u1", type := "deploy",
                              status := JobStatus.completed } := by
  have h := job_read_requester_irrelevant singleOwnerStore "J1" "owner" "stranger"
  exact ⟨h.1, h.2 _ (by decide)⟩

/- ===================== Socket hub (server.js connection handler) ===================== -/

/-- Client-to-server socket events handled in `io.on('connection')`. -/
inductive SocketEvent where
  | subscribeJob (jobId : String)
  | unsubscribeJob (jobId : String)
  | disconnect
deriving DecidableEq, Repr

/-- Actions a handler performs on the connected socket.  `emitEvent` carries
the event name, a log list and an optional status, which is the shape a
`snapshot` event would need. -/
inductive SocketAction where
  | joinRoom (room : String)
  | leaveRoom (room : String)
  | emitEvent (event : String) (logs : List LogEntry) (status : Option JobStatus)
deriving DecidableEq, Repr

/-- Whether an action emits an event to the socket. -/
def isEmitAction : SocketAction → Bool
  | SocketAction.emitEvent _ _ _ => true
  | _ => false

/-- The persisted log tail of a job as the subscribe handler could read it
from the store (`job.result.logs`). -/
def persistedJobLogs (j : OwnedJob) : List LogEntry :=
  match j.result with
  | some r => r.logs
  | none => []

/-- The `io.on('connection')` dispatcher of `server.js`: `subscribe:job`
joins `job:{id}`, `unsubscribe:job` leaves it, `disconnect` does nothing.
The handlers receive the store (they could read it for a snapshot) but only
log to the console and touch room membership. -/
def connectionHandler (_store : List OwnedJob) : SocketEvent → List SocketAction
  | SocketEvent.subscribeJob jobId => [SocketAction.joinRoom ("job:" ++ jobId)]
  | SocketEvent.unsubscribeJob jobId => [SocketAction.leaveRoom ("job:" ++ jobId)]
  | SocketEvent.disconnect => []

/-- A job holding a persisted log, for the snapshot claim. -/
def snapshotJob : OwnedJob :=
  { id := "J1", userId := "u1", type := "compile", status := JobStatus.active,
    result := some { success := false, logs := [⟨"info", "Compilation started...", 3⟩] } }

/-- A store with one job holding a persisted log, for the snapshot claim. -/
def snapshotStore : List OwnedJob := [snapshotJob]

/-- C4 counterexample: on `subscribe:job` the handler only joins the room -
it is not followed by a `snapshot` emission carrying the persisted logs and
status (nor by any emission at all), so the claimed join-then-snapshot
sequence is not what the server does. -/
theorem subscribe_emits_no_snapshot :
    connectionHandler snapshotStore (SocketEvent.subscribeJob "J1")
      = [SocketAction.joinRoom "job:J1"]
    ∧ connectionHandler snapshotStore (SocketEvent.subscribeJob "J1")
      ≠ [SocketAction.joinRoom "job:J1",
         SocketAction.emitEvent "snapshot" (persistedJobLogs snapshotJob)
           (some snapshotJob.status)] := by
  refine ⟨?_, ?_⟩ <;> decide

/-- C4 amended: `subscribe(job_id)` joins the socket to room `job:{job_id}`
and nothing else; no handler of the connection dispatcher ever emits an
event to the socket, so no snapshot of persisted logs and status is sent. -/
theorem subscribe_only_joins_room (store : List OwnedJob) (jobId : String) :
    connectionHandler store (SocketEvent.subscribeJob jobId)
      = [SocketAction.joinRoom ("job:" ++ jobId)]
    ∧ (∀ ev : SocketEvent,
        ((connectionHandler store ev).filter isEmitAction) = []) := by
  refine ⟨rfl, fun ev => ?_⟩
  cases ev <;> rfl

/-- Witness for C4 amended at the snapshot store. -/
theorem subscribe_only_joins_room_witness :
    connectionHandler snapshotStore (SocketEvent.subscribeJob "J7")
      = [SocketAction.joinRoom "job:J7"]
    ∧ ((connectionHandler snapshotStore (SocketEvent.subscribeJob "J7")).filter
        isEmitAction) = [] := by
  have h := subscribe_only_joins_room snapshotStore "J7"
  exact ⟨h.1, h.2 (SocketEvent.subscribeJob "J7")⟩

/- ===================== Log persistence on failure (compilationService.compileProject, compileWorker catch) ===================== -/

/-- The persisted log tail of a stored job (`result.logs`, empty when no
result is stored). -/
def storedLogs (j : StoredJob) : List LogEntry :=
  match j.result with
  | some r => r.logs
  | none => []

/-- The `log(type, message)` emission loop of `compileProject`: the `i`-th
call stamps the record with the wall clock at call time (`clock i`). -/
def emitAll (clock : Nat → Nat) : Nat → List (String × String) → List LogEntry
  | _, [] => []
  | i, (ty, m) :: rest => ⟨ty, m, clock i⟩ :: emitAll clock (i + 1) rest

/-- How a `compileProject` call ends: a resolved result object, or a
rejected promise carrying the thrown error's message. -/
inductive CompileOutcome where
  | resolved (r : CompileServiceResult)
  | rejected (msg : String)
deriving DecidableEq, Repr

/-- The message of the `ReferenceError` raised inside `compileProject`'s own
catch block: `const logs = []` is declared inside the try block, so the
catch's `logs.push(logEntry)` references an out-of-scope binding. -/
def compileCatchThrownMessage : String := "logs is not defined"

/-- `compileProject` when its try block throws: the catch block itself
throws the `ReferenceError` above before reaching its return statement
(the finally's cleanup is wrapped and does not interfere), so the call
rejects with that message and the original error message is lost. -/
def compileProjectThrowOutcome (_origErrMsg : String) : CompileOutcome :=
  CompileOutcome.rejected compileCatchThrownMessage

/-- The compile worker's own catch block write: status `failed` and a result
holding only the fresh `Compilation failed: ...` record. -/
def compileWorkerCatchWrite (msg : String) (t : Nat) (_j : StoredJob) : StoredJob :=
  { status := JobStatus.failed,
    result := some { success := false,
                     logs := [⟨"error", "Compilation failed: " ++ msg, t⟩],
                     error := some msg },
    error := some msg }

/-- The single record `compileProject` emitted before the exception in the
counterexample run. -/
def preFailureEmitted : List LogEntry :=
  [⟨"info", "Starting real Rust compilation...", 0⟩]

/-- An initially queued stored job. -/
def queuedStoredJob : StoredJob :=
  { status := JobStatus.queued, result := none, error := none }

/-- `processCompileJob` over the service's outcome, after the initial
mark-active write (which precedes the worker's try block): the terminal
write on a resolved result; the worker-catch write on a rejection (the
exception is re-raised to the broker afterwards). -/
def compileWorkerRun (t tc : Nat) (o : CompileOutcome) (j : StoredJob) : StoredJob :=
  match o with
  | CompileOutcome.resolved r => compileTerminalWrite r (compileMarkActive t j)
  | CompileOutcome.rejected msg => compileWorkerCatchWrite msg tc (compileMarkActive t j)

/-- C5 counterexample: a compile run that emits one record and then throws.
`compileProject`'s catch block itself throws (its `logs` binding is out of
scope there), so the worker's catch persists only the synthetic
`Compilation failed: logs is not defined` entry; the record emitted before
the failure is lost, and the persisted sequence is neither a prefix nor a
suffix of the emitted sequence. -/
theorem compile_exception_discards_emitted_logs :
    storedLogs (compileWorkerRun 0 5 (compileProjectThrowOutcome "boom") queuedStoredJob)
      = [⟨"error", "Compilation failed: logs is not defined", 5⟩]
    ∧ (∃ l, l ∈ preFailureEmitted
        ∧ l ∉ storedLogs (compileWorkerRun 0 5 (compileProjectThrowOutcome "boom")
              queuedStoredJob))
    ∧ ¬ (storedLogs (compileWorkerRun 0 5 (compileProjectThrowOutcome "boom")
            queuedStoredJob) <+: preFailureEmitted
        ∨ storedLogs (compileWorkerRun 0 5 (compileProjectThrowOutcome "boom")
            queuedStoredJob) <:+ preFailureEmitted) := by
  refine ⟨rfl, ⟨⟨"info", "Starting real Rust compilation...", 0⟩, ?_, ?_⟩, ?_⟩
  · decide
  · decide
  · rintro (⟨t, ht⟩ | ⟨t, ht⟩)
    · rw [show storedLogs (compileWorkerRun 0 5 (compileProjectThrowOutcome "boom")
            queuedStoredJob)
          = [⟨"error", "Compilation failed: logs is not defined", 5⟩] from rfl] at ht
      simp [preFailureEmitted] at ht
    · rw [show storedLogs (compileWorkerRun 0 5 (compileProjectThrowOutcome "boom")
            queuedStoredJob)
          = [⟨"error", "Compilation failed: logs is not defined", 5⟩] from rfl] at ht
      rcases t with _ | ⟨a, t2⟩
      · simp [preFailureEmitted] at ht
      · simp [preFailureEmitted] at ht

/-- Adjacent timestamps of an emission run are ordered by the wall clock. -/
theorem emitAll_timestamps_chain (clock : Nat → Nat) (hmono : Monotone clock) :
    ∀ (msgs : List (String × String)) (i : Nat),
      List.Chain' (fun a b : LogEntry => a.timestamp ≤ b.timestamp)
        (emitAll clock i msgs) := by
  intro msgs
  induction msgs with
  | nil => intro i; simp [emitAll]
  | cons m rest ih =>
    intro i
    rcases rest with _ | ⟨m2, r2⟩
    · simp [emitAll]
    · rcases m with ⟨ty, msg⟩
      rcases m2 with ⟨ty2, msg2⟩
      refine List.Chain'.cons ?_ (ih (i + 1))
      exact hmono (Nat.le_succ i)

/-- C5 amended: a failure the service REPORTS (resolving with
`success:false` and its full `logs` array - every `deployContract` failure
and `compileProject`'s returned failures do this) persists exactly the
emitted sequence - trivially a prefix of it - and its timestamps are
non-decreasing; but when `compileProject`'s try block throws, its catch
block itself throws `ReferenceError: logs is not defined` (the `logs`
binding is scoped to the try block), the original error message is lost,
and the worker's catch persists a single synthetic
`Compilation failed: logs is not defined` record, discarding the records
emitted before the failure from the stored job. -/
theorem compile_failure_log_persistence (clock : Nat → Nat)
    (hmono : Monotone clock) (msgs : List (String × String))
    (errMsg : String) (t tc : Nat) (j : StoredJob) :
    storedLogs (compileWorkerRun t tc
        (CompileOutcome.resolved
          { success := false, logs := emitAll clock 0 msgs, error := some errMsg }) j)
      = emitAll clock 0 msgs
    ∧ emitAll clock 0 msgs <+: emitAll clock 0 msgs
    ∧ List.Chain' (fun a b : LogEntry => a.timestamp ≤ b.timestamp)
        (emitAll clock 0 msgs)
    ∧ compileProjectThrowOutcome errMsg
      = CompileOutcome.rejected "logs is not defined"
    ∧ storedLogs (compileWorkerRun t tc (compileProjectThrowOutcome errMsg) j)
      = [⟨"error", "Compilation failed: logs is not defined", tc⟩] :=
  ⟨rfl, List.prefix_rfl, emitAll_timestamps_chain clock hmono msgs 0, rfl, rfl⟩

/-- Witness for C5 amended on a two-record emission with the identity
clock. -/
theorem compile_failure_log_persistence_witness :
    storedLogs (compileWorkerRun 9 5
        (CompileOutcome.resolved
          { success := false,
            logs := emitAll (fun n => n) 0 [("info", "a"), ("error", "b")],
            error := some "boom" }) queuedStoredJob)
      = [⟨"info", "a", 0⟩, ⟨"error", "b", 1⟩]
    ∧ storedLogs (compileWorkerRun 9 5 (compileProjectThrowOutcome "boom")
        queuedStoredJob)
      = [⟨"error", "Compilation failed: logs is not defined", 5⟩] := by
  have h := compile_failure_log_persistence (fun n => n)
    (fun _ _ hab => hab) [("info", "a"), ("error", "b")] "boom" 9 5 queuedStoredJob
  exact ⟨h.1, h.2.2.2.2⟩

/- ===================== Contract-ID extraction (deploymentService.extractContractId) ===================== -/

/-- JS `\s` and `String.prototype.trim` whitespace, restricted to the ASCII
range that can occur here. -/
def isJsSpace (c : Char) : Bool :=
  c = ' ' ∨ c = '\t' ∨ c = '\n' ∨ c = '\r' ∨ c = '\x0b' ∨ c = '\x0c'

/-- The character class `[A-Z0-9]`. -/
def isUpperOrDigit (c : Char) : Bool :=
  ('A' ≤ c ∧ c ≤ 'Z') ∨ ('0' ≤ c ∧ c ≤ '9')

/-- `String.prototype.trim`. -/
def trimChars (cs : List Char) : List Char :=
  ((cs.dropWhile isJsSpace).reverse.dropWhile isJsSpace).reverse

/-- Substring containment (`String.prototype.includes`). -/
def containsSub (needle : List Char) : List Char → Bool
  | [] => needle.isEmpty
  | c :: t => needle.isPrefixOf (c :: t) || containsSub needle t

/-- The text after the first occurrence of `sep` (`none` when `sep` does not
occur). -/
def afterFirst (sep : List Char) : List Char → Option (List Char)
  | [] => none
  | c :: t =>
    if sep.isPrefixOf (c :: t) then some ((c :: t).drop sep.length)
    else afterFirst sep t

/-- The text before the first occurrence of `sep` (all of it when `sep` does
not occur).  `uptoFirst sep (afterFirst sep s)` is `s.split(sep)[1]`. -/
def uptoFirst (sep : List Char) : List Char → List Char
  | [] => []
  | c :: t =>
    if sep.isPrefixOf (c :: t) then []
    else c :: uptoFirst sep t

/-- `output.split('\n')`. -/
def splitOnNewline : List Char → List (List Char)
  | [] => [[]]
  | c :: t =>
    if c = '\n' then [] :: splitOnNewline t
    else
      match splitOnNewline t with
      | [] => [[c]]
      | h :: r => (c :: h) :: r

/-- Match of `/id:\s*(C[A-Z0-9]+)/` anchored at the start of `cs`, returning
the capture.  The quantifiers need no backtracking: after maximal `\s*` the
next character either is `C` or no shorter space run helps. -/
def matchIdRegexAt : List Char → Option (List Char)
  | 'i' :: 'd' :: ':' :: rest =>
    match rest.dropWhile isJsSpace with
    | 'C' :: more =>
      let run := more.takeWhile isUpperOrDigit
      if run.isEmpty then none else some ('C' :: run)
    | _ => none
  | _ => none

/-- Match of the CODE's JSON regex `/"id":\s*"(C[A-Z0-9]+)"/` anchored at the
start of `cs` - note: no whitespace is allowed between `"id"` and the
colon. -/
def matchJsonIdCodeAt : List Char → Option (List Char)
  | '"' :: 'i' :: 'd' :: '"' :: ':' :: rest =>
    match rest.dropWhile isJsSpace with
    | '"' :: 'C' :: more =>
      let run := more.takeWhile isUpperOrDigit
      if run.isEmpty then none
      else
        match more.drop run.length with
        | '"' :: _ => some ('C' :: run)
        | _ => none
    | _ => none
  | _ => none

/-- Match of the CLAIM's JSON regex `"id"\s*:\s*"(C[A-Z0-9]+)"` anchored at
the start of `cs` - whitespace allowed on both sides of the colon. -/
def matchJsonIdClaimAt : List Char → Option (List Char)
  | '"' :: 'i' :: 'd' :: '"' :: rest =>
    match rest.dropWhile isJsSpace with
    | ':' :: r2 =>
      match r2.dropWhile isJsSpace with
      | '"' :: 'C' :: more =>
        let run := more.takeWhile isUpperOrDigit
        if run.isEmpty then none
        else
          match more.drop run.length with
          | '"' :: _ => some ('C' :: run)
          | _ => none
      | _ => none
    | _ => none
  | _ => none

/-- Leftmost match: try the anchored matcher at every position, left to
right (`String.prototype.match` with an unanchored regex). -/
def scanMatch (f : List Char → Option (List Char)) : List Char → Option (List Char)
  | [] => f []
  | c :: cs =>
    match f (c :: cs) with
    | some r => some r
    | none => scanMatch f cs

/-- `'Contract ID:'` as characters. -/
def contractIdSep : List Char := "Contract ID:".data

/-- `'id:'` as characters. -/
def idColonSep : List Char := "id:".data

/-- `'"id"'` as characters. -/
def jsonIdSep : List Char := "\"id\"".data

/-- The body of `extractContractId`'s `for (const line of lines)` loop,
translated if-block by if-block: the trimmed long `C` line; the
`Contract ID:` split (falling through when the token does not start with
`C`); the guarded `id:` regex; the guarded JSON regex. -/
def extractFromLine (line : List Char) : Option (List Char) :=
  let t := trimChars line
  if t.head? = some 'C' ∧ 50 < t.length then some t
  else
    match (if containsSub contractIdSep line then
             let cid := trimChars (uptoFirst contractIdSep
               ((afterFirst contractIdSep line).getD []))
             if cid.head? = some 'C' then some cid else none
           else none) with
    | some r => some r
    | none =>
      match (if containsSub idColonSep line && containsSub ['C'] line
             then scanMatch matchIdRegexAt line else none) with
      | some r => some r
      | none =>
        if containsSub jsonIdSep line && containsSub ['C'] line
        then scanMatch matchJsonIdCodeAt line else none

/-- The `for (const line of lines)` loop: first line with a match wins. -/
def extractLoop : List (List Char) → Option (List Char)
  | [] => none
  | l :: rest =>
    match extractFromLine l with
    | some r => some r
    | none => extractLoop rest

/-- `deploymentService.extractContractId(output)`: split on newlines, scan
the lines in order, return the first extracted token (`none` stands for the
JS `null`). -/
def extractContractId (output : String) : Option String :=
  (extractLoop (splitOnNewline output.data)).map fun cs => String.mk cs

/-- Heuristic 1 of the claim and the code: a whole (trimmed) line beginning
with `C` and longer than 50 characters. -/
def lineStartsC50 (line : List Char) : Option (List Char) :=
  let t := trimChars line
  if t.head? = some 'C' ∧ 50 < t.length then some t else none

/-- Heuristic 2: a line containing `Contract ID:` followed by a token
starting with `C`. -/
def lineContractIdToken (line : List Char) : Option (List Char) :=
  if containsSub contractIdSep line then
    let cid := trimChars (uptoFirst contractIdSep
      ((afterFirst contractIdSep line).getD []))
    if cid.head? = some 'C' then some cid else none
  else none

/-- Heuristic 3 as the code guards it: the `id:` regex, run only when the
line contains `id:` and `C`. -/
def lineIdColonRegex (line : List Char) : Option (List Char) :=
  if containsSub idColonSep line && containsSub ['C'] line
  then scanMatch matchIdRegexAt line else none

/-- Heuristic 4 as the CODE has it: the no-space JSON regex, guarded. -/
def lineJsonIdCodeRegex (line : List Char) : Option (List Char) :=
  if containsSub jsonIdSep line && containsSub ['C'] line
  then scanMatch matchJsonIdCodeAt line else none

/-- Heuristic 4 as the CLAIM states it: the JSON regex with optional
whitespace around the colon. -/
def lineJsonIdClaimRegex (line : List Char) : Option (List Char) :=
  scanMatch matchJsonIdClaimAt line

/-- The extraction as the CLAIM describes it: the four heuristics applied IN
ORDER over the whole output - each heuristic scans all lines before the next
heuristic is tried - with the claim's JSON regex. -/
def extractContractIdClaim (output : String) : Option String :=
  (let lines := splitOnNewline output.data
   match lines.findSome? lineStartsC50 with
   | some r => some r
   | none =>
     match lines.findSome? lineContractIdToken with
     | some r => some r
     | none =>
       match lines.findSome? (fun l => scanMatch matchIdRegexAt l) with
       | some r => some r
       | none => lines.findSome? lineJsonIdClaimRegex).map fun cs => String.mk cs

/-- The amended description: scan the lines in order and, within each line,
try the four heuristics in order (with the code's JSON regex); the first
matching (line, heuristic) pair wins. -/
def extractByLineScan (output : String) : Option String :=
  ((splitOnNewline output.data).findSome? (fun l =>
    (lineStartsC50 l).orElse fun _ =>
      (lineContractIdToken l).orElse fun _ =>
        (lineIdColonRegex l).orElse fun _ => lineJsonIdCodeRegex l)).map
    fun cs => String.mk cs

/-- Deploy-CLI output whose only id is JSON-shaped with a space before the
colon: the claim's regex accepts it, the code's does not. -/
def jsonSpacedOutput : String := "\"id\" : \"CAB1\""

/-- Deploy-CLI output whose first line matches only the third heuristic and
whose second line matches the first heuristic. -/
def twoLineOutput : String :=
  "x id: CABC\nCCCCCCCCCCCCCCCCCCCCCCCCCCCCCCCCCCCCCCCCCCCCCCCCCCC"

/-- The 51-character `C` line of `twoLineOutput`. -/
def longCLine : String := "CCCCCCCCCCCCCCCCCCCCCCCCCCCCCCCCCCCCCCCCCCCCCCCCCCC"

/-- C7 counterexample: on `jsonSpacedOutput` the claim's heuristics extract
`CAB1` while the code returns no identifier (its JSON regex allows no space
before the colon); on `twoLineOutput` the claim's heuristic-major order
returns the long `C` line while the code's line-major scan returns `CABC`. -/
theorem extractContractId_deviates_from_claim :
    extractContractId jsonSpacedOutput = none
    ∧ extractContractIdClaim jsonSpacedOutput = some "CAB1"
    ∧ extractContractId twoLineOutput = some "CABC"
    ∧ extractContractIdClaim twoLineOutput = some longCLine
    ∧ extractContractId twoLineOutput ≠ extractContractIdClaim twoLineOutput := by
  refine ⟨?_, ?_, ?_, ?_, ?_⟩ <;> decide

/-- Each line's inline loop body equals the ordered fallback of the four
named heuristics. -/
theorem extractFromLine_eq_heuristics (l : List Char) :
    extractFromLine l
      = ((lineStartsC50 l).orElse fun _ =>
          (lineContractIdToken l).orElse fun _ =>
            (lineIdColonRegex l).orElse fun _ => lineJsonIdCodeRegex l) := by
  unfold extractFromLine lineStartsC50 lineContractIdToken lineIdColonRegex
    lineJsonIdCodeRegex
  by_cases h1 : (trimChars l).head? = some 'C' ∧ 50 < (trimChars l).length
  · simp [h1, Option.orElse]
  · simp only [h1, if_false]
    by_cases h2 : containsSub contractIdSep l = true
    · simp only [h2, if_true]
      by_cases h2t : (trimChars (uptoFirst contractIdSep
          ((afterFirst contractIdSep l).getD []))).head? = some 'C'
      · simp [h2t, Option.orElse]
      · simp only [h2t, if_false]
        cases h3 : (if containsSub idColonSep l && containsSub ['C'] l
                    then scanMatch matchIdRegexAt l else none) with
        | some r => simp [h3, Option.orElse]
        | none => simp [h3, Option.orElse]
    · simp only [h2, Bool.false_eq_true, if_false]
      cases h3 : (if containsSub idColonSep l && containsSub ['C'] l
                  then scanMatch matchIdRegexAt l else none) with
      | some r => simp [h3, Option.orElse]
      | none => simp [h3, Option.orElse]

/-- The line loop equals a `findSome?` of the per-line heuristic fallback. -/
theorem extractLoop_eq_findSome (ls : List (List Char)) :
    extractLoop ls
      = ls.findSome? (fun l =>
          (lineStartsC50 l).orElse fun _ =>
            (lineContractIdToken l).orElse fun _ =>
              (lineIdColonRegex l).orElse fun _ => lineJsonIdCodeRegex l) := by
  induction ls with
  | nil => rfl
  | cons l rest ih =>
    rw [List.findSome?]
    rw [← extractFromLine_eq_heuristics l]
    unfold extractLoop
    cases h : extractFromLine l with
    | some r => rfl
    | none => simpa using ih

/-- C7 amended: `extractContractId` scans the lines in order and applies the
four heuristics within each line in the given order, with a JSON regex that
admits no whitespace between `"id"` and the colon; the token of the first
matching line-and-heuristic pair is returned, and an output matching no
heuristic on any line yields no identifier. -/
theorem extractContractId_line_major (output : String) :
    extractContractId output = extractByLineScan output := by
  unfold extractContractId extractByLineScan
  rw [extractLoop_eq_findSome]
